import Mathlib

/-!
# MDDP_CTL: the Dawn Pro control protocol of `main.cpp`

A shallow embedding of `main.cpp`: the volume codec (`to_normal`, `to_uint8`),
the command frames, the two-phase control-transfer exchange (`read`, `write`),
the status decoders and the command dispatcher `main`.

Conventions.
* A byte (`uint8_t`) is a `Nat` below 256; a C `int` is an `Int`.  The
  conversion of an `int` to `uint8_t` is `uint8`, reduction modulo `2^8`.
* Code with side effects threads a `World` explicitly: the transfers issued so
  far and the lines written to standard output and standard error.
* Undefined behaviour of the C++ program (reading `argv` past its end, indexing
  `filterTable` out of range, an `atoi` result that does not fit an `int`) is the
  result `none`.
-/

namespace MDDP

/-! ## Machine integers -/

/-- Conversion of a C `int` to `uint8_t`. -/
def uint8 (x : Int) : Nat := (x % 256).toNat

def INT_MIN : Int := -2147483648
def INT_MAX : Int := 2147483647

/-! ## Constants of `main.cpp` -/

def GET_ALL : List Nat := [0xC0, 0xA5, 0xA3]
def GET_VOLUME : List Nat := [0xC0, 0xA5, 0xA2]
def SET_FILTER : List Nat := [0xC0, 0xA5, 0x01]
def SET_GAIN : List Nat := [0xC0, 0xA5, 0x02]
def SET_VOLUME : List Nat := [0xC0, 0xA5, 0x04]
def SET_INDICATOR : List Nat := [0xC0, 0xA5, 0x06]

def REQUEST_ID_WRITE : Nat := 0xA0
def REQUEST_ID_READ : Nat := 0xA1
def REQUEST_VALUE : Nat := 0x0000
def REQUEST_INDEX : Nat := 0x09A0

def VOLUME_IDX : Nat := 4
def FILTER_IDX : Nat := 3
def GAIN_IDX : Nat := 4
def INDICATOR_IDX : Nat := 5
def DATA_BUFFER_SIZE : Nat := 7

/-- The table `volumeTable[][2]`: each entry is `(raw byte, normalized level)`. -/
def volumeTable : List (Nat × Nat) :=
  [(255,0),(200,1),(180,2),(170,3),(160,4),(150,5),(140,6),(130,7),(122,8),(116,9),
   (110,10),(106,11),(102,12),(98,13),(94,14),(90,15),(88,16),(86,17),(84,18),(82,19),
   (80,20),(78,21),(76,22),(74,23),(72,24),(70,25),(68,26),(66,27),(64,28),(62,29),(60,30),
   (58,31),(56,32),(54,33),(52,34),(50,35),(48,36),(46,37),(44,38),(42,39),(40,40),(38,41),
   (36,42),(34,43),(32,44),(30,45),(28,46),(26,47),(24,48),(22,49),(20,50),(18,51),(16,52),
   (14,53),(12,54),(10,55),(8,56),(6,57),(4,58),(2,59),(0,60)]

def filterTable : List String :=
  ["Fast Roll Off Low Latency",
   "Fast Roll Off Phase Compensated",
   "Slow Roll Off Low Latency",
   "Slow Roll Off Phase Compensated",
   "Non Oversampling"]

/-! ## Volume codec -/

/-- The loop of `to_normal` over the remaining entries: the first entry whose
raw byte equals `raw` decides; falling off the end returns `-1`. -/
def to_normal_scan : List (Nat × Nat) → Nat → Int
  | [], _ => -1
  | entry :: rest, raw => if raw = entry.1 then (entry.2 : Int) else to_normal_scan rest raw

/-- Source function `int to_normal(uint8_t raw)`. -/
def to_normal (raw : Nat) : Int := to_normal_scan volumeTable raw

/-- The loop of `to_uint8` over the remaining entries: the first entry whose
level equals `normal` decides; falling off the end returns `-1`, which the
return type `uint8_t` converts. -/
def to_uint8_scan : List (Nat × Nat) → Nat → Nat
  | [], _ => uint8 (-1)
  | entry :: rest, normal => if normal = entry.2 then entry.1 else to_uint8_scan rest normal

/-- Source function `uint8_t to_uint8(uint8_t normal)`. -/
def to_uint8 (normal : Nat) : Nat := to_uint8_scan volumeTable normal

/-- The raw bytes that occur in the table. -/
def rawBytes : List Nat := volumeTable.map Prod.fst

/-! ## The USB library, seen from the program

`libusb` is not part of the program.  A control transfer is modelled as an
abstract operation: it is recorded, and the device handle decides its signed
result code and, for a device-to-host transfer, the bytes stored into the
caller's buffer. -/

def LIBUSB_REQUEST_TYPE_VENDOR : Nat := 0x40
def LIBUSB_RECIPIENT_OTHER : Nat := 0x03
def LIBUSB_ENDPOINT_IN : Nat := 0x80

/-- One call of `libusb_control_transfer`: its arguments, with `data` the first
`wLength` bytes of the buffer handed over. -/
structure Transfer where
  bmRequestType : Nat
  bRequest : Nat
  wValue : Nat
  wIndex : Nat
  data : List Nat
  wLength : Nat
  timeout : Nat
  deriving DecidableEq, Repr

/-- What a control transfer does: its result code (negative on error) and the
bytes the device stores into the buffer. -/
structure Outcome where
  result : Int
  stored : List Nat

/-- Whether the direction bit of a request type says device-to-host. -/
def Transfer.deviceToHost (t : Transfer) : Bool := t.bmRequestType / 128 % 2 = 1

/-- The environment of the program: the USB library and device on one side, the
two output streams on the other. -/
structure World where
  /-- Result of `libusb_init`. -/
  initStatus : Int
  /-- Whether `libusb_open_device_with_vid_pid` finds the device. -/
  connected : Bool
  /-- The open device: the outcome of a transfer, given the transfers before it. -/
  device : List Transfer → Transfer → Outcome
  /-- The function `libusb_error_name`. -/
  errorName : Int → String
  /-- The control transfers issued so far, oldest first. -/
  transfers : List Transfer
  /-- The lines written to `std::cout`, oldest first. -/
  cout : List String
  /-- The lines written to `std::cerr`, oldest first. -/
  cerr : List String

/-- Writing `line << std::endl` to `std::cout`. -/
def World.print (w : World) (line : String) : World := { w with cout := w.cout ++ [line] }

/-- Writing `line << std::endl` to `std::cerr`. -/
def World.eprint (w : World) (line : String) : World := { w with cerr := w.cerr ++ [line] }

/-- The call `libusb_control_transfer(dac, bmRequestType, bRequest, wValue, wIndex,
data, wLength, timeout)`: returns the result code and the buffer afterwards.  A
device-to-host transfer overwrites a prefix of at most `wLength` bytes of the
buffer; a host-to-device transfer leaves it as it is. -/
def libusb_control_transfer (w : World) (bmRequestType bRequest wValue wIndex : Nat)
    (data : List Nat) (wLength timeout : Nat) : Int × List Nat × World :=
  let t : Transfer := ⟨bmRequestType, bRequest, wValue, wIndex, data.take wLength, wLength, timeout⟩
  let o := w.device w.transfers t
  let stored := o.stored.take wLength
  let data := if t.deviceToHost then stored ++ data.drop stored.length else data
  (o.result, data, { w with transfers := w.transfers ++ [t] })

/-- The statement `if (transfer < 0) std::cerr << "Error submitting transfer: " << ...`. -/
def report (w : World) (transfer : Int) : World :=
  if transfer < 0 then w.eprint ("Error submitting transfer: " ++ w.errorName transfer) else w

/-! ## Transport -/

/-- Source function `std::vector<uint8_t> read(libusb_device_handle *dac, uint8_t *request)`. -/
def read (w : World) (request : List Nat) : List Nat × World :=
  let data := List.replicate DATA_BUFFER_SIZE 0
  let (transfer, _, w) := libusb_control_transfer w
    (LIBUSB_REQUEST_TYPE_VENDOR ||| LIBUSB_RECIPIENT_OTHER)
    REQUEST_ID_WRITE REQUEST_VALUE REQUEST_INDEX request 3 0
  let w := report w transfer
  let (transfer, data, w) := libusb_control_transfer w
    (LIBUSB_REQUEST_TYPE_VENDOR ||| LIBUSB_RECIPIENT_OTHER ||| LIBUSB_ENDPOINT_IN)
    REQUEST_ID_READ REQUEST_VALUE REQUEST_INDEX data DATA_BUFFER_SIZE 0
  let w := report w transfer
  (data, w)

/-- Source function `void write(libusb_device_handle *dac, uint8_t *request)`. -/
def write (w : World) (request : List Nat) : World :=
  let (transfer, _, w) := libusb_control_transfer w
    (LIBUSB_REQUEST_TYPE_VENDOR ||| LIBUSB_RECIPIENT_OTHER)
    REQUEST_ID_WRITE REQUEST_VALUE REQUEST_INDEX request 4 0
  report w transfer

/-! ## Status decoder

`read` returns a vector of `DATA_BUFFER_SIZE` elements, so the constant indices
below are in range; `getD` reads the element.  The conversions of a byte to
`int` in the decoders keep its value, so the byte is used as it is. -/

/-- Source function `int get_volume(libusb_device_handle *dac)`. -/
def get_volume (w : World) : Int × World :=
  let (data, w) := read w GET_VOLUME
  (to_normal (data.getD VOLUME_IDX 0), w)

/-- Source function `const char *get_indicator(libusb_device_handle *dac)`. -/
def get_indicator (w : World) : String × World :=
  let (data, w) := read w GET_ALL
  let indicator := data.getD INDICATOR_IDX 0
  (match indicator with
    | 0 => "on"
    | 1 => "Temp off"
    | _ => "Off", w)

/-- Source function `const char *get_gain(libusb_device_handle *dac)`. -/
def get_gain (w : World) : String × World :=
  let (data, w) := read w GET_ALL
  let gain := data.getD GAIN_IDX 0
  (if gain = 0 then "Low" else "High", w)

/-- Source function `const char *get_filter(libusb_device_handle *dac)`: the element of
`filterTable` at the filter byte, `none` when the index is out of range. -/
def get_filter (w : World) : Option String × World :=
  let (data, w) := read w GET_ALL
  let filter := data.getD FILTER_IDX 0
  (filterTable[filter]?, w)

/-! ## The C library function `atoi`

Not part of the program; modelled after ISO C: white space is skipped, an
optional sign is read, then decimal digits up to the first other character.
A value that does not fit an `int` is undefined behaviour. -/

/-- The test `isspace` in the C locale. -/
def isspace (c : Char) : Bool := c = ' ' || (9 ≤ c.toNat && c.toNat ≤ 13)

/-- The test `isdigit` in the C locale. -/
def isdigit (c : Char) : Bool := 48 ≤ c.toNat && c.toNat ≤ 57

/-- The digits loop of `atoi`, with the value read so far. -/
def atoi_digits : Nat → List Char → Nat
  | acc, [] => acc
  | acc, c :: cs => if isdigit c then atoi_digits (acc * 10 + (c.toNat - 48)) cs else acc

/-- The value `atoi` reads, before the range check. -/
def atoi_value (s : List Char) : Int :=
  match s.dropWhile isspace with
  | [] => 0
  | c :: cs =>
    if c = '-' then -(atoi_digits 0 cs : Int)
    else if c = '+' then (atoi_digits 0 cs : Int)
    else (atoi_digits 0 (c :: cs) : Int)

/-- The function `int atoi(const char *)`. -/
def atoi (s : String) : Option Int :=
  let v := atoi_value s.toList
  if INT_MIN ≤ v ∧ v ≤ INT_MAX then some v else none

/-! ## Command encoder -/

/-- Source function `void set_volume(libusb_device_handle *dac, char *argv)`. -/
def set_volume (w : World) (argv : String) : Option World := do
  let n ← atoi argv
  let cmd := [SET_VOLUME.getD 0 0, SET_VOLUME.getD 1 0, SET_VOLUME.getD 2 0, to_uint8 (uint8 n)]
  pure (write w cmd)

/-- Source function `void set_filter(libusb_device_handle *dac, char *argv)`. -/
def set_filter (w : World) (argv : String) : Option World := do
  let n ← atoi argv
  let cmd := [SET_FILTER.getD 0 0, SET_FILTER.getD 1 0, SET_FILTER.getD 2 0, uint8 n]
  pure (write w cmd)

/-- Source function `void set_gain(libusb_device_handle *dac, char *argv)`. -/
def set_gain (w : World) (argv : String) : Option World := do
  let n ← atoi argv
  let cmd := [SET_GAIN.getD 0 0, SET_GAIN.getD 1 0, SET_GAIN.getD 2 0, uint8 n]
  pure (write w cmd)

/-- Source function `void set_indicator(libusb_device_handle *dac, char *argv)`. -/
def set_indicator (w : World) (argv : String) : Option World := do
  let n ← atoi argv
  let cmd := [SET_INDICATOR.getD 0 0, SET_INDICATOR.getD 1 0, SET_INDICATOR.getD 2 0, uint8 n]
  pure (write w cmd)

/-! ## Command dispatcher -/

def usage : String := "Invalid command usage: get <status|volume|filter|gain|indicator>"

/-- The branch `strcmp(argv[1], "get") == 0` of `main`. -/
def main_get (w : World) (argv : List String) : Option World := do
  let sub ← argv[2]?
  if sub = "status" then
    let (data, w) := read w GET_ALL
    let (volume, w) := get_volume w
    let w := w.print ("Volume: " ++ toString volume)
    let filter ← filterTable[data.getD FILTER_IDX 0]?
    let w := w.print ("Filter: " ++ filter)
    let w := if data.getD GAIN_IDX 0 = 0 then w.print ("Gain: " ++ "Low") else w.print ("Gain: " ++ "High")
    let (indicator, w) := get_indicator w
    pure (w.print ("Indicator: " ++ indicator))
  else if sub = "volume" then
    let (volume, w) := get_volume w
    pure (w.print (toString volume))
  else if sub = "filter" then
    let (filter, w) := get_filter w
    let filter ← filter
    pure (w.print filter)
  else if sub = "gain" then
    let (gain, w) := get_gain w
    pure (w.print gain)
  else if sub = "indicator" then
    let (indicator, w) := get_indicator w
    pure (w.print indicator)
  else
    pure (w.eprint usage)

/-- The branch `strcmp(argv[1], "set") == 0` of `main`. -/
def main_set (w : World) (argv : List String) : Option World := do
  let sub ← argv[2]?
  if sub = "volume" then
    set_volume w (← argv[3]?)
  else if sub = "filter" then
    set_filter w (← argv[3]?)
  else if sub = "gain" then
    set_gain w (← argv[3]?)
  else if sub = "indicator" then
    set_indicator w (← argv[3]?)
  else
    pure w

/-- Source function `int main(int argc, char *argv[])`: the exit code and the world afterwards.
`argv` holds `argc` strings, the program name first. -/
def main (w : World) (argv : List String) : Option (Int × World) :=
  let status := w.initStatus
  if status ≠ 0 then
    some (-status, w.eprint "Error cold't intit libusb")
  else if !w.connected then
    some (-1, w.eprint "dac not connected")
  else do
    let verb ← argv[1]?
    let w ←
      if verb = "get" then main_get w argv
      else if verb = "set" then main_set w argv
      else pure ((w.print verb).eprint usage)
    pure (0, w)

/-- A world in which nothing has happened yet: the library initialises, the
device is connected, answers every host-to-device transfer with `rc` and every
device-to-host transfer by storing `answer`. -/
def World.start (answer : List Nat) (rc : Int) : World where
  initStatus := 0
  connected := true
  device := fun _ t => if t.deviceToHost then ⟨(answer.length : Int), answer⟩ else ⟨rc, []⟩
  errorName := fun _ => "LIBUSB_ERROR_OTHER"
  transfers := []
  cout := []
  cerr := []

/-- The write-phase transfer of `read`. -/
def readRequest (request : List Nat) : Transfer :=
  ⟨0x43, 0xA0, 0, 0x09A0, request.take 3, 3, 0⟩

/-- The read-phase transfer of `read`. -/
def readResponse : Transfer :=
  ⟨0xC3, 0xA1, 0, 0x09A0, [0, 0, 0, 0, 0, 0, 0], 7, 0⟩

/-- The transfer of `write`. -/
def writeRequest (request : List Nat) : Transfer :=
  ⟨0x43, 0xA0, 0, 0x09A0, request.take 4, 4, 0⟩

/-! ## Volume codec: theorems -/

theorem to_normal_scan_absent (l : List (Nat × Nat)) (r : Nat) (h : r ∉ l.map Prod.fst) :
    to_normal_scan l r = -1 := by
  induction l with
  | nil => rfl
  | cons e es ih =>
    simp only [List.map_cons, List.mem_cons, not_or] at h
    simp [to_normal_scan, h.1, ih h.2]

theorem to_uint8_scan_absent (l : List (Nat × Nat)) (n : Nat) (h : n ∉ l.map Prod.snd) :
    to_uint8_scan l n = 255 := by
  induction l with
  | nil => rfl
  | cons e es ih =>
    simp only [List.map_cons, List.mem_cons, not_or] at h
    simp [to_uint8_scan, h.1, ih h.2]

theorem to_normal_absent (r : Nat) (h : r ∉ rawBytes) : to_normal r = -1 :=
  to_normal_scan_absent volumeTable r h

theorem to_normal_table : ∀ e ∈ volumeTable, to_normal e.1 = (e.2 : Int) := by decide

theorem to_normal_present : ∀ r ∈ rawBytes, 0 ≤ to_normal r ∧ to_normal r ≤ 60 := by decide

theorem levels_le : ∀ n ∈ volumeTable.map Prod.snd, n ≤ 60 := by decide

theorem to_uint8_above (n : Nat) (h : 61 ≤ n) : to_uint8 n = 255 := by
  apply to_uint8_scan_absent
  intro hn
  have := levels_le n hn
  omega

/-- C1. Every one of the 61 entries `(raw, level)` of `volumeTable` is mapped by
`to_normal` from `raw` to `level` and by `to_uint8` from `level` to `raw`; hence
`to_normal (to_uint8 n) = n` for every level `n` in 0..60, and
`to_uint8 (to_normal r) = r` for every raw byte `r` of the table. -/
theorem volume_codec_roundtrip :
    volumeTable.length = 61 ∧
    (∀ e ∈ volumeTable, to_normal e.1 = (e.2 : Int) ∧ to_uint8 e.2 = e.1) ∧
    (∀ n : Nat, n ≤ 60 → to_normal (to_uint8 n) = (n : Int)) ∧
    (∀ r ∈ rawBytes, to_uint8 (uint8 (to_normal r)) = r) := by
  refine ⟨by decide, by decide, ?_, by decide⟩
  intro n hn
  interval_cases n <;> rfl

theorem volume_codec_roundtrip_witness :
    (30 : Nat) ≤ 60 ∧ to_normal (to_uint8 30) = ((30 : Nat) : Int) :=
  ⟨by decide, volume_codec_roundtrip.2.2.1 30 (by decide)⟩

/-- C2 (the code at the failing input). For the level 61, outside 0..60,
`to_uint8` returns 255, the conversion of `-1` to `uint8_t`; this is the raw
byte the table pairs with level 0, so the result is not distinct from a found
raw byte: `to_uint8 61 = to_uint8 0`, and decoding it gives level 0. -/
theorem to_uint8_sentinel_collides :
    to_uint8 61 = 255 ∧ uint8 (-1) = 255 ∧ (255, 0) ∈ volumeTable ∧
    to_uint8 61 = to_uint8 0 ∧ to_normal (to_uint8 61) = 0 := by
  decide

/-- C3. A raw byte that is not the first component of any `volumeTable` entry
(such as 111, 1 or 254) is mapped by `to_normal` to `-1`; and `to_normal r` lies
in 0..60 if and only if `r` occurs in the table. -/
theorem to_normal_not_found :
    (∀ r : Nat, r ∉ rawBytes → to_normal r = -1) ∧
    (∀ r : Nat, (0 ≤ to_normal r ∧ to_normal r ≤ 60) ↔ r ∈ rawBytes) ∧
    to_normal 111 = -1 ∧ to_normal 1 = -1 ∧ to_normal 254 = -1 := by
  refine ⟨to_normal_absent, ?_, by decide, by decide, by decide⟩
  intro r
  constructor
  · intro h
    by_contra hr
    rw [to_normal_absent r hr] at h
    omega
  · exact to_normal_present r

theorem to_normal_not_found_witness :
    (111 : Nat) ∉ rawBytes ∧ to_normal 111 = -1 :=
  ⟨by decide, to_normal_not_found.1 111 (by decide)⟩

/-! ## Transport: theorems -/

theorem read_transfers (w : World) (request : List Nat) :
    (read w request).2.transfers = w.transfers ++ [readRequest request, readResponse] := by
  simp [read, libusb_control_transfer, report, World.eprint, readRequest, readResponse,
    LIBUSB_REQUEST_TYPE_VENDOR, LIBUSB_RECIPIENT_OTHER, LIBUSB_ENDPOINT_IN, REQUEST_ID_WRITE,
    REQUEST_ID_READ, REQUEST_VALUE, REQUEST_INDEX, DATA_BUFFER_SIZE]
  split <;> split <;> simp

theorem read_buffer (w : World) (request : List Nat) :
    (read w request).1 =
      ((w.device (w.transfers ++ [readRequest request]) readResponse).stored.take 7) ++
        List.drop ((w.device (w.transfers ++ [readRequest request]) readResponse).stored.take 7).length
          [0, 0, 0, 0, 0, 0, 0] := by
  have hw : ∀ (v : World) (r : Int), (report v r).transfers = v.transfers ∧
      (report v r).device = v.device := by
    intro v r
    unfold report World.eprint
    split <;> simp
  simp [read, libusb_control_transfer, readRequest, readResponse, Transfer.deviceToHost,
    LIBUSB_REQUEST_TYPE_VENDOR, LIBUSB_RECIPIENT_OTHER, LIBUSB_ENDPOINT_IN, REQUEST_ID_WRITE,
    REQUEST_ID_READ, REQUEST_VALUE, REQUEST_INDEX, DATA_BUFFER_SIZE, hw]

theorem read_length (w : World) (request : List Nat) : (read w request).1.length = 7 := by
  rw [read_buffer]
  simp only [List.length_append, List.length_drop, List.length_take, List.length_cons,
    List.length_nil]
  omega

/-- C7. Whatever the device answers to the first transfer (a negative result
code included), `read` issues exactly two control transfers, first the
host-to-device one (request `0xA0`, the 3 bytes of the command frame), then the
device-to-host one (request `0xA1`, 7 bytes), and returns a buffer of exactly
7 bytes. -/
theorem read_two_phases (w : World) (request : List Nat) :
    (read w request).2.transfers = w.transfers ++ [readRequest request, readResponse] ∧
    (read w request).1.length = 7 ∧
    ((readRequest request).deviceToHost = false ∧ (readRequest request).bRequest = 0xA0 ∧
      (readRequest request).wLength = 3 ∧ (readRequest request).data = request.take 3) ∧
    (readResponse.deviceToHost = true ∧ readResponse.bRequest = 0xA1 ∧
      readResponse.wLength = 7) :=
  ⟨read_transfers w request, read_length w request,
    ⟨by simp [Transfer.deviceToHost, readRequest], rfl, rfl, rfl⟩, ⟨by decide, rfl, rfl⟩⟩

/-- With a failing write phase (result `-4`) the read phase still runs and its
answer is what `read` returns; one error line is logged. -/
theorem read_after_failed_write :
    (read (World.start [1, 2, 3, 4, 5, 6, 7] (-4)) GET_ALL).1 = [1, 2, 3, 4, 5, 6, 7] ∧
    (read (World.start [1, 2, 3, 4, 5, 6, 7] (-4)) GET_ALL).2.transfers =
      [readRequest GET_ALL, readResponse] ∧
    (read (World.start [1, 2, 3, 4, 5, 6, 7] (-4)) GET_ALL).2.cerr =
      ["Error submitting transfer: LIBUSB_ERROR_OTHER"] := by
  refine ⟨by decide, by decide, by decide⟩

/-- Every 7-byte buffer is a buffer `read` can return: the device that stores
`b` in the read phase makes `read` return `b`, whatever the write phase did. -/
theorem read_start (b : List Nat) (rc : Int) (request : List Nat) (hb : b.length = 7) :
    (read (World.start b rc) request).1 = b := by
  have hd : readResponse.deviceToHost = true := by decide
  have ht : List.take 7 b = b := List.take_of_length_le (by omega)
  rw [read_buffer]
  simp only [World.start, hd, if_true, ht, hb]
  simp

/-! ## Status decoder: theorems -/

theorem get_volume_eq (w : World) :
    (get_volume w).1 = to_normal ((read w GET_VOLUME).1.getD 4 0) := rfl

theorem get_filter_eq (w : World) :
    (get_filter w).1 = filterTable[(read w GET_ALL).1.getD 3 0]? := rfl

theorem get_gain_eq (w : World) :
    (get_gain w).1 = if (read w GET_ALL).1.getD 4 0 = 0 then "Low" else "High" := rfl

theorem get_indicator_eq (w : World) :
    (get_indicator w).1 =
      if (read w GET_ALL).1.getD 5 0 = 0 then "on"
      else if (read w GET_ALL).1.getD 5 0 = 1 then "Temp off" else "Off" := by
  show (match (read w GET_ALL).1.getD 5 0 with
    | 0 => "on"
    | 1 => "Temp off"
    | _ => "Off") = _
  rcases (read w GET_ALL).1.getD 5 0 with _ | _ | n <;> simp

theorem filterTable_isSome (i : Nat) (h : i ≤ 4) : (filterTable[i]?).isSome = true := by
  interval_cases i <;> rfl

/-- C5. When `b` is the 7-byte buffer `read` returns for the "get all" query
and `b[3]` is in 0..4: `get_filter` yields `filterTable[b[3]]`, `get_gain`
yields "Low" if `b[4] = 0` and "High" otherwise, `get_indicator` yields "on" if
`b[5] = 0`, "Temp off" if `b[5] = 1` and "Off" otherwise.  With `b[3] = 2`,
`b[4] = 100`, `b[5] = 1` the three results are "Slow Roll Off Low Latency",
"High" and "Temp off". -/
theorem status_decode (w : World) (b : List Nat) (hb : (read w GET_ALL).1 = b)
    (hf : b.getD 3 0 ≤ 4) :
    b.length = 7 ∧
    ((get_filter w).1 = filterTable[b.getD 3 0]? ∧ (get_filter w).1.isSome = true) ∧
    (get_gain w).1 = (if b.getD 4 0 = 0 then "Low" else "High") ∧
    (get_indicator w).1 =
      (if b.getD 5 0 = 0 then "on" else if b.getD 5 0 = 1 then "Temp off" else "Off") ∧
    (b.getD 3 0 = 2 → b.getD 4 0 = 100 → b.getD 5 0 = 1 →
      (get_filter w).1 = some "Slow Roll Off Low Latency" ∧ (get_gain w).1 = "High" ∧
        (get_indicator w).1 = "Temp off") := by
  subst hb
  refine ⟨read_length w GET_ALL, ⟨get_filter_eq w, ?_⟩, get_gain_eq w, get_indicator_eq w, ?_⟩
  · rw [get_filter_eq]
    exact filterTable_isSome _ hf
  · intro h3 h4 h5
    rw [get_filter_eq, get_gain_eq, get_indicator_eq, h3, h4, h5]
    exact ⟨rfl, rfl, rfl⟩

theorem status_decode_witness :
    (get_filter (World.start [9, 9, 9, 2, 100, 1, 9] 3)).1 = some "Slow Roll Off Low Latency" ∧
    (get_gain (World.start [9, 9, 9, 2, 100, 1, 9] 3)).1 = "High" ∧
    (get_indicator (World.start [9, 9, 9, 2, 100, 1, 9] 3)).1 = "Temp off" :=
  (status_decode (World.start [9, 9, 9, 2, 100, 1, 9] 3) [9, 9, 9, 2, 100, 1, 9]
    (by decide) (by decide)).2.2.2.2 rfl rfl rfl

/-- C6. When `b` is the 7-byte buffer `read` returns for the volume query,
`get_volume` yields `to_normal b[4]`: the level the table pairs with `b[4]` when
there is one, `-1` when `b[4]` is not in the table, and 10 for `b[4] = 110`.  No
other byte matters: a run whose buffer has the same byte at offset 4 yields the
same result. -/
theorem volume_decode (w : World) (b : List Nat) (hb : (read w GET_VOLUME).1 = b) :
    b.length = 7 ∧
    (get_volume w).1 = to_normal (b.getD 4 0) ∧
    (∀ level : Nat, (b.getD 4 0, level) ∈ volumeTable → (get_volume w).1 = (level : Int)) ∧
    (b.getD 4 0 ∉ rawBytes → (get_volume w).1 = -1) ∧
    (b.getD 4 0 = 110 → (get_volume w).1 = 10) ∧
    (∀ w2 : World, (read w2 GET_VOLUME).1.getD 4 0 = b.getD 4 0 →
      (get_volume w2).1 = (get_volume w).1) := by
  subst hb
  refine ⟨read_length w GET_VOLUME, get_volume_eq w, ?_, ?_, ?_, ?_⟩
  · intro level h
    rw [get_volume_eq]
    exact to_normal_table _ h
  · intro h
    rw [get_volume_eq]
    exact to_normal_absent _ h
  · intro h
    rw [get_volume_eq, h]
    rfl
  · intro w2 h
    rw [get_volume_eq, get_volume_eq, h]

theorem volume_decode_witness :
    (get_volume (World.start [9, 9, 9, 9, 110, 9, 9] 3)).1 = 10 :=
  (volume_decode (World.start [9, 9, 9, 9, 110, 9, 9] 3) [9, 9, 9, 9, 110, 9, 9]
    (by decide)).2.2.2.2.1 rfl

theorem read_nothing_stored (w : World) (h : ∀ past t, (w.device past t).stored = [])
    (request : List Nat) : (read w request).1 = [0, 0, 0, 0, 0, 0, 0] := by
  rw [read_buffer, h]
  rfl

/-- C10. When neither transfer stores any data, `read` returns the all-zero
7-byte buffer it allocated, and every decoder yields a value of a successful
response, not an error marker: the volume is 60, the level the table pairs with
raw byte 0 (and not `-1`), the filter is "Fast Roll Off Low Latency", the gain
is "Low" and the indicator is "on"; a device that answers with seven zero
bytes yields the same four values. -/
theorem zero_buffer_decode (w : World) (h : ∀ past t, (w.device past t).stored = []) :
    (∀ request, (read w request).1 = [0, 0, 0, 0, 0, 0, 0]) ∧
    ((get_volume w).1 = 60 ∧ (0, 60) ∈ volumeTable) ∧
    (get_filter w).1 = some "Fast Roll Off Low Latency" ∧
    (get_gain w).1 = "Low" ∧
    (get_indicator w).1 = "on" ∧
    ((get_volume (World.start [0, 0, 0, 0, 0, 0, 0] 3)).1 = (get_volume w).1 ∧
      (get_filter (World.start [0, 0, 0, 0, 0, 0, 0] 3)).1 = (get_filter w).1 ∧
      (get_gain (World.start [0, 0, 0, 0, 0, 0, 0] 3)).1 = (get_gain w).1 ∧
      (get_indicator (World.start [0, 0, 0, 0, 0, 0, 0] 3)).1 = (get_indicator w).1) := by
  have hr := read_nothing_stored w h
  have hv : (get_volume w).1 = 60 := by rw [get_volume_eq, hr]; rfl
  have hf : (get_filter w).1 = some "Fast Roll Off Low Latency" := by
    rw [get_filter_eq, hr]; rfl
  have hg : (get_gain w).1 = "Low" := by rw [get_gain_eq, hr]; rfl
  have hi : (get_indicator w).1 = "on" := by rw [get_indicator_eq, hr]; rfl
  refine ⟨hr, ⟨hv, by decide⟩, hf, hg, hi, ?_, ?_, ?_, ?_⟩
  · rw [hv]; decide
  · rw [hf]; decide
  · rw [hg]; decide
  · rw [hi]; decide

theorem zero_buffer_decode_witness :
    (get_volume (World.start [] (-1))).1 = 60 ∧
    (get_filter (World.start [] (-1))).1 = some "Fast Roll Off Low Latency" ∧
    (get_gain (World.start [] (-1))).1 = "Low" ∧
    (get_indicator (World.start [] (-1))).1 = "on" :=
  have h := zero_buffer_decode (World.start [] (-1))
    (by intro past t; simp only [World.start]; split <;> rfl)
  ⟨h.2.1.1, h.2.2.1, h.2.2.2.1, h.2.2.2.2.1⟩

/-! ## `atoi` on decimal numerals -/

theorem digitChar_spec (d : Nat) (h : d < 10) :
    isdigit (Nat.digitChar d) = true ∧ (Nat.digitChar d).toNat - 48 = d := by
  interval_cases d <;> decide

theorem isdigit_not_space (c : Char) (h : isdigit c = true) :
    isspace c = false ∧ c ≠ '-' ∧ c ≠ '+' := by
  simp only [isdigit, Bool.and_eq_true, decide_eq_true_eq] at h
  refine ⟨?_, ?_, ?_⟩
  · simp only [isspace, Bool.or_eq_false_iff, decide_eq_false_iff_not, Bool.and_eq_false_iff]
    refine ⟨?_, ?_⟩
    · rintro rfl
      revert h
      decide
    · omega
  · rintro rfl
    revert h
    decide
  · rintro rfl
    revert h
    decide

theorem atoi_digits_toDigitsCore (fuel : Nat) : ∀ (n : Nat) (ds : List Char), n < fuel →
    ∃ k, ∀ acc, atoi_digits acc (Nat.toDigitsCore 10 fuel n ds) =
      atoi_digits (acc * 10 ^ k + n) ds := by
  induction fuel with
  | zero => intro n ds h; omega
  | succ f ih =>
    intro n ds h
    have hd := digitChar_spec (n % 10) (Nat.mod_lt n (by decide))
    by_cases h0 : n / 10 = 0
    · refine ⟨1, fun acc => ?_⟩
      have hn : n % 10 = n := by omega
      simp only [Nat.toDigitsCore, h0, if_true, atoi_digits, hd.1, hd.2, pow_one]
      rw [hn]
    · obtain ⟨k, hk⟩ := ih (n / 10) (Nat.digitChar (n % 10) :: ds) (by omega)
      refine ⟨k + 1, fun acc => ?_⟩
      simp only [Nat.toDigitsCore, h0, if_false, hk, atoi_digits, hd.1, hd.2, if_true]
      congr 1
      rw [pow_succ]
      have := Nat.div_add_mod n 10
      nlinarith

theorem toDigitsCore_head (fuel : Nat) : ∀ (n : Nat) (ds : List Char), n < fuel →
    ∃ c cs, Nat.toDigitsCore 10 fuel n ds = c :: cs ∧ isdigit c = true := by
  induction fuel with
  | zero => intro n ds h; omega
  | succ f ih =>
    intro n ds h
    by_cases h0 : n / 10 = 0
    · exact ⟨_, ds, by simp only [Nat.toDigitsCore, h0, if_true],
        (digitChar_spec (n % 10) (Nat.mod_lt n (by decide))).1⟩
    · obtain ⟨c, cs, hc, hdig⟩ := ih (n / 10) (Nat.digitChar (n % 10) :: ds) (by omega)
      exact ⟨c, cs, by simp only [Nat.toDigitsCore, h0, if_false, hc], hdig⟩

theorem atoi_digits_toDigits (n : Nat) : atoi_digits 0 (Nat.toDigits 10 n) = n := by
  obtain ⟨k, hk⟩ := atoi_digits_toDigitsCore (n + 1) n [] (Nat.lt_succ_self n)
  simp [Nat.toDigits, hk, atoi_digits]

theorem atoi_value_toDigits (n : Nat) : atoi_value (Nat.toDigits 10 n) = (n : Int) := by
  obtain ⟨c, cs, hc, hdig⟩ := toDigitsCore_head (n + 1) n [] (Nat.lt_succ_self n)
  have hs := isdigit_not_space c hdig
  have hval := atoi_digits_toDigits n
  unfold Nat.toDigits at hval ⊢
  rw [hc] at hval ⊢
  simp only [atoi_value, List.dropWhile, hs.1, hs.2.1, hs.2.2, if_false, hval]

theorem atoi_value_neg_toDigits (n : Nat) :
    atoi_value ('-' :: Nat.toDigits 10 n) = -(n : Int) := by
  have hsp : isspace '-' = false := by decide
  simp only [atoi_value, List.dropWhile, hsp, if_true, atoi_digits_toDigits]

theorem toString_nat_toList (n : Nat) : (toString n).toList = Nat.toDigits 10 n := rfl

theorem atoi_value_toString (v : Int) : atoi_value (toString v).toList = v := by
  cases v with
  | ofNat m =>
    show atoi_value (toString m).toList = _
    rw [toString_nat_toList, atoi_value_toDigits]
    rfl
  | negSucc m =>
    show atoi_value ("-" ++ toString (m + 1)).toList = _
    have : ("-" ++ toString (m + 1)).toList = '-' :: Nat.toDigits 10 (m + 1) := by
      rw [String.toList, String.data_append]
      rfl
    rw [this, atoi_value_neg_toDigits]
    rfl

/-- On the decimal numeral of an `int` value, `atoi` returns that value. -/
theorem atoi_toString (v : Int) (h1 : INT_MIN ≤ v) (h2 : v ≤ INT_MAX) :
    atoi (toString v) = some v := by
  unfold atoi
  simp only [atoi_value_toString, h1, h2, and_self, if_true]

/-! ## Command encoder: theorems -/

theorem write_transfers (w : World) (cmd : List Nat) :
    (write w cmd).transfers = w.transfers ++ [writeRequest cmd] := by
  simp only [write, libusb_control_transfer, report, World.eprint, writeRequest,
    LIBUSB_REQUEST_TYPE_VENDOR, LIBUSB_RECIPIENT_OTHER, REQUEST_ID_WRITE, REQUEST_VALUE,
    REQUEST_INDEX]
  split <;> rfl

theorem uint8_of_byte (n : Nat) (h : n < 256) : uint8 (n : Int) = n := by
  unfold uint8
  omega

theorem to_uint8_table : ∀ e ∈ volumeTable, to_uint8 e.2 = e.1 := by decide

theorem to_uint8_paired (n : Nat) (hn : n ≤ 60) : (to_uint8 n, n) ∈ volumeTable := by
  interval_cases n <;> decide

/-- C4. For every level `n` in 0..60 given as its decimal numeral, `set_volume`
hands to `write` exactly the frame `[0xC0, 0xA5, 0x04, to_uint8 n]`, which
`write` sends as the 4 bytes of one host-to-device transfer; for `n = 30` the
final byte is 60.  The final byte is the raw byte of the table for `n`: the
pair `(to_uint8 n, n)` is an entry of `volumeTable`, and it is the raw byte of
every entry whose level is `n`. -/
theorem set_volume_frame (w : World) (n : Nat) (hn : n ≤ 60) :
    set_volume w (toString n) = some (write w [0xC0, 0xA5, 0x04, to_uint8 n]) ∧
    (write w [0xC0, 0xA5, 0x04, to_uint8 n]).transfers =
      w.transfers ++ [writeRequest [0xC0, 0xA5, 0x04, to_uint8 n]] ∧
    (writeRequest [0xC0, 0xA5, 0x04, to_uint8 n]).data = [0xC0, 0xA5, 0x04, to_uint8 n] ∧
    (n = 30 → to_uint8 n = 60) ∧
    (to_uint8 n, n) ∈ volumeTable ∧
    (∀ raw : Nat, (raw, n) ∈ volumeTable → to_uint8 n = raw) := by
  have ha : atoi (toString n) = some (n : Int) :=
    atoi_toString (n : Int) (by unfold INT_MIN; omega) (by unfold INT_MAX; omega)
  refine ⟨?_, write_transfers w _, rfl, ?_, to_uint8_paired n hn, ?_⟩
  · simp only [set_volume, ha, Option.bind_eq_bind, Option.some_bind, Option.pure_def,
      uint8_of_byte n (by omega)]
    rfl
  · rintro rfl
    rfl
  · intro raw hraw
    exact to_uint8_table (raw, n) hraw

theorem set_volume_frame_witness :
    (set_volume (World.start [] 4) "30").map (fun w => w.transfers.map Transfer.data) =
      some [[0xC0, 0xA5, 0x04, 60]] := by
  have h := set_volume_frame (World.start [] 4) 30 (by decide)
  have h1 : set_volume (World.start [] 4) "30" = _ := h.1
  rw [h1, Option.map_some', h.2.1]
  rfl

/-- C8 (counterexample). Given the integer 256, `set_filter` sends the frame
`[0xC0, 0xA5, 0x01, 0]`: the value byte is 0, not the supplied integer 256. -/
theorem set_filter_value_byte_wraps :
    (set_filter (World.start [] 4) "256").map
        (fun w => w.transfers.map (fun t => t.data.map Int.ofNat)) =
      some [[0xC0, 0xA5, 0x01, 0]] ∧
    ([0xC0, 0xA5, 0x01, 0] : List Int) ≠ [0xC0, 0xA5, 0x01, 256] := by
  have ha : atoi "256" = some 256 := atoi_toString 256 (by decide) (by decide)
  refine ⟨?_, by decide⟩
  simp only [set_filter, ha, Option.bind_eq_bind, Option.some_bind, Option.pure_def,
    Option.map_some', write_transfers]
  rfl

/-- C8 (amended). For every `int` value `v` given as its decimal numeral,
`set_filter`, `set_gain` and `set_indicator` hand to `write` the opcode triplet
`[0xC0, 0xA5, 0x01]`, `[0xC0, 0xA5, 0x02]` or `[0xC0, 0xA5, 0x06]` followed by
the byte `v mod 256`, with no check against the range of the attribute; that
byte is `v` itself when `v` is in 0..255. -/
theorem set_value_frames (w : World) (v : Int) (h1 : INT_MIN ≤ v) (h2 : v ≤ INT_MAX) :
    set_filter w (toString v) = some (write w [0xC0, 0xA5, 0x01, uint8 v]) ∧
    set_gain w (toString v) = some (write w [0xC0, 0xA5, 0x02, uint8 v]) ∧
    set_indicator w (toString v) = some (write w [0xC0, 0xA5, 0x06, uint8 v]) ∧
    (∀ cmd : List Nat, (write w cmd).transfers = w.transfers ++ [writeRequest cmd] ∧
      (writeRequest cmd).data = cmd.take 4) ∧
    (uint8 v < 256 ∧ (uint8 v : Int) = v % 256) ∧
    (0 ≤ v → v ≤ 255 → (uint8 v : Int) = v) := by
  have ha := atoi_toString v h1 h2
  refine ⟨?_, ?_, ?_, fun cmd => ⟨write_transfers w cmd, rfl⟩, ⟨?_, ?_⟩, ?_⟩
  · simp only [set_filter, ha, Option.bind_eq_bind, Option.some_bind, Option.pure_def]
    rfl
  · simp only [set_gain, ha, Option.bind_eq_bind, Option.some_bind, Option.pure_def]
    rfl
  · simp only [set_indicator, ha, Option.bind_eq_bind, Option.some_bind, Option.pure_def]
    rfl
  · unfold uint8; omega
  · unfold uint8; omega
  · intro h0 h255
    unfold uint8; omega

theorem set_value_frames_witness :
    INT_MIN ≤ 300 ∧ (300 : Int) ≤ INT_MAX ∧
    set_gain (World.start [] 4) (toString (300 : Int)) =
      some (write (World.start [] 4) [0xC0, 0xA5, 0x02, uint8 300]) ∧
    uint8 300 = 44 :=
  ⟨by decide, by decide,
    (set_value_frames (World.start [] 4) 300 (by decide) (by decide)).2.1, by decide⟩

/-! ## Command dispatcher: theorems -/

/-- A verb other than "get" and "set" is echoed to standard output, the usage
line goes to standard error, and no transfer is issued. -/
theorem main_unknown_verb (w : World) (argv : List String) (verb : String)
    (hi : w.initStatus = 0) (hc : w.connected = true) (hv : argv[1]? = some verb)
    (hg : verb ≠ "get") (hs : verb ≠ "set") :
    main w argv = some (0, (w.print verb).eprint usage) ∧
    ((w.print verb).eprint usage).transfers = w.transfers ∧
    ((w.print verb).eprint usage).cerr = w.cerr ++ [usage] := by
  refine ⟨?_, rfl, rfl⟩
  simp [main, hi, hc, hv, hg, hs]

/-- Under "get", a sub-verb that is not recognised sends the usage line to
standard error, and no transfer is issued. -/
theorem main_get_unknown (w : World) (argv : List String) (sub : String)
    (hi : w.initStatus = 0) (hc : w.connected = true) (hv : argv[1]? = some "get")
    (hsub : argv[2]? = some sub)
    (h1 : sub ≠ "status") (h2 : sub ≠ "volume") (h3 : sub ≠ "filter") (h4 : sub ≠ "gain")
    (h5 : sub ≠ "indicator") :
    main w argv = some (0, w.eprint usage) ∧
    (w.eprint usage).transfers = w.transfers ∧ (w.eprint usage).cerr = w.cerr ++ [usage] := by
  refine ⟨?_, rfl, rfl⟩
  simp [main, main_get, hi, hc, hv, hsub, h1, h2, h3, h4, h5]

/-- Under "set", a sub-verb that is not recognised changes nothing: no transfer
is issued and nothing is written to either stream. -/
theorem main_set_unknown (w : World) (argv : List String) (sub : String)
    (hi : w.initStatus = 0) (hc : w.connected = true) (hv : argv[1]? = some "set")
    (hsub : argv[2]? = some sub)
    (h1 : sub ≠ "volume") (h2 : sub ≠ "filter") (h3 : sub ≠ "gain")
    (h4 : sub ≠ "indicator") :
    main w argv = some (0, w) := by
  simp [main, main_set, hi, hc, hv, hsub, h1, h2, h3, h4]

/-- C9 (the code at the failing input). For the arguments `set bogus 1` with the
device opened, `main` returns 0 having issued no transfer and having written
nothing to standard error (nor to standard output): the branch for "set" has no
usage message for an unknown sub-verb. -/
theorem main_set_bogus_is_silent :
    (main (World.start [] 0) ["mddp_ctl", "set", "bogus", "1"]).map
        (fun r => (r.1, r.2.transfers, r.2.cerr, r.2.cout)) =
      some (0, [], [], []) := by
  rw [main_set_unknown (World.start [] 0) ["mddp_ctl", "set", "bogus", "1"] "bogus" rfl rfl rfl
    rfl (by decide) (by decide) (by decide) (by decide)]
  rfl

end MDDP
